import Mathlib

/-!
Verification of the `TaskForm` controller
(`src/frontend/components/TaskForm.tsx`).

The component is embedded shallowly: JavaScript strings are Lean `String`s
(length counts characters, matching `s.length` on the code's inputs),
component state is an explicit record, and the event handlers
`validateForm`, `handleSubmit` and `handleChange` are pure functions from
state (plus, for `handleSubmit`, the behaviour of the caller-supplied
`onSubmit` callback) to state together with the externally observable
effects. Dates are kept opaque (`Option Nat`); only presence and identity
of the due date matter to any property proved here.
-/

namespace TaskForm

/-- Whitespace as removed by JavaScript's `String.prototype.trim`
(the ASCII white-space characters plus NBSP, the Unicode line and
paragraph separators and the BOM; the exact membership of the set is
irrelevant to the properties proved below). -/
def isJsSpace (c : Char) : Bool :=
  c = ' ' || c = '\t' || c = '\n' || c = '\r' || c = '\x0b' || c = '\x0c' ||
  c = '\u00A0' || c = '\u2028' || c = '\u2029' || c = '\uFEFF'

/-- JavaScript `trim` on the underlying character list: drop leading
whitespace, then drop trailing whitespace. -/
def jsTrimList (l : List Char) : List Char :=
  List.rdropWhile isJsSpace (l.dropWhile isJsSpace)

/-- JavaScript `s.trim()`. -/
def jsTrim (s : String) : String :=
  ⟨jsTrimList s.data⟩

/-- The `FormData` record of the component (lines 26–29): the two
text fields of the draft owned directly by the form. -/
structure FormData where
  title : String
  description : String
  deriving DecidableEq

/-- The `ValidationErrors` object (lines 31–34): an optional message per
field. `none` stands both for an absent key and for a key explicitly set
to `undefined`; the two are indistinguishable everywhere the code reads
the object (`Object.keys` is only ever applied to the fresh object built
inside `validateForm`, never to a state that went through
`handleChange`). -/
structure ValidationErrors where
  title : Option String
  description : Option String
  deriving DecidableEq

/-- `Object.keys(errors).length` for the error object built by
`validateForm`: a key is present exactly when the corresponding
assignment ran. -/
def ValidationErrors.numKeys (e : ValidationErrors) : Nat :=
  (if e.title.isSome then 1 else 0) + (if e.description.isSome then 1 else 0)

/-- The two field names `handleChange` can receive from the rendered
inputs (`name="title"`, `name="description"`). -/
inductive FieldName
  | title
  | description
  deriving DecidableEq

/-- The other field name. -/
def FieldName.other : FieldName → FieldName
  | .title => .description
  | .description => .title

/-- Read a field of the draft by name. -/
def FormData.getField : FormData → FieldName → String
  | fd, .title => fd.title
  | fd, .description => fd.description

/-- `setFormData(prev => ({ ...prev, [name]: value }))` (line 100). -/
def FormData.setField : FormData → FieldName → String → FormData
  | fd, .title, v => { fd with title := v }
  | fd, .description, v => { fd with description := v }

/-- `validationErrors[name]`. -/
def ValidationErrors.get : ValidationErrors → FieldName → Option String
  | e, .title => e.title
  | e, .description => e.description

/-- `{ ...prev, [name]: v }` on the error object (line 102). -/
def ValidationErrors.set : ValidationErrors → FieldName → Option String → ValidationErrors
  | e, .title, v => { e with title := v }
  | e, .description, v => { e with description := v }

/-- JavaScript truthiness of `validationErrors[name]` (line 101): the
entry is defined and is not the empty string. -/
def truthy : Option String → Bool
  | none => false
  | some m => m ≠ ""

/-- The full component state (lines 46–59): the draft
(`formData`, `category`, `priority`, `dueDate`), the loading flag, the
per-field validation errors and the whole-form error message. -/
structure ComponentState where
  formData : FormData
  category : Option String
  priority : String
  dueDate : Option Nat
  loading : Bool
  validationErrors : ValidationErrors
  error : String
  deriving DecidableEq

/-- Component construction (lines 36–59): the initial state computed from
the props. `initialPriority || 'medium'` treats both `null` and the empty
string as falsy; `initialDueDate ? new Date(initialDueDate) : null` is
modelled with the parsed date kept opaque. -/
def initState (initialTitle initialDescription : String)
    (initialCategory : Option String) (initialPriority : Option String)
    (initialDueDate : Option Nat) : ComponentState :=
  { formData := ⟨initialTitle, initialDescription⟩,
    category := initialCategory,
    priority :=
      match initialPriority with
      | some p => if p = "" then "medium" else p
      | none => "medium",
    dueDate := initialDueDate,
    loading := false,
    validationErrors := ⟨none, none⟩,
    error := "" }

/-- `validateForm` (lines 61–73), error-object part: a fresh `errors`
object is built from the current draft alone. `!formData.title.trim()`
is the JavaScript emptiness test on the trimmed title; the two length
checks are on the untrimmed strings. -/
def validateForm (formData : FormData) : ValidationErrors :=
  { title :=
      if jsTrim formData.title = "" then some "Task title is required"
      else if formData.title.length > 200 then some "Title must be under 200 characters"
      else none,
    description :=
      if formData.description.length > 1000 then
        some "Description must be under 1000 characters"
      else none }

/-- The boolean `validateForm` returns (line 72):
`Object.keys(errors).length === 0`. -/
def validateReturn (formData : FormData) : Bool :=
  (validateForm formData).numKeys == 0

/-- Behaviour of one invocation of the caller-supplied `onSubmit`
callback: its promise either resolves, rejects with a JavaScript `Error`
carrying a message (the `err instanceof Error` case on line 91), or
rejects with a non-`Error` value. -/
inductive CallbackResult
  | success
  | errorWith (msg : String)
  | throwNonError
  deriving DecidableEq

/-- The argument tuple passed to `onSubmit` (line 83). -/
structure SubmitArgs where
  title : String
  description : String
  category : Option String
  priority : String
  dueDate : Option Nat
  deriving DecidableEq

/-- Result of one complete run of `handleSubmit`: the state once the
handler finishes, whether (and with which arguments) `onSubmit` was
invoked, and whether `toast.error` fired. -/
structure SubmitOutcome where
  state : ComponentState
  callbackArgs : Option SubmitArgs
  toastEmitted : Bool
  deriving DecidableEq

/-- `handleSubmit` (lines 75–96), run to completion for a given callback
behaviour. Step by step: `setError('')` (line 77); `validateForm()` both
records the fresh error object and returns its verdict (lines 71–72,
79); on failure the handler returns with no further effect; otherwise
`setLoading(true)` (line 81), `onSubmit(title.trim(),
description.trim(), category, priority, dueDate)` (line 83); on success
the draft is reset when both initial fields were falsy (lines 84–89); on
rejection the message (or the fallback) is recorded and a toast fires
(lines 90–92); the `finally` block runs `setLoading(false)` on every
path (lines 93–95). The function is total: no rejection escapes it. -/
def handleSubmit (initialTitle initialDescription : String)
    (s : ComponentState) (cb : CallbackResult) : SubmitOutcome :=
  let s := { s with error := "" }
  let errors := validateForm s.formData
  let s := { s with validationErrors := errors }
  if errors.numKeys = 0 then
    let s := { s with loading := true }
    let args : SubmitArgs :=
      ⟨jsTrim s.formData.title, jsTrim s.formData.description,
       s.category, s.priority, s.dueDate⟩
    match cb with
    | .success =>
        let s :=
          if initialTitle = "" && initialDescription = "" then
            { s with formData := ⟨"", ""⟩, category := none,
                     priority := "medium", dueDate := none }
          else s
        { state := { s with loading := false },
          callbackArgs := some args, toastEmitted := false }
    | .errorWith msg =>
        { state := { s with error := msg, loading := false },
          callbackArgs := some args, toastEmitted := true }
    | .throwNonError =>
        { state := { s with error := "Failed to save task", loading := false },
          callbackArgs := some args, toastEmitted := true }
  else
    { state := s, callbackArgs := none, toastEmitted := false }

/-- `handleChange` (lines 98–104): overwrite the edited field in the
draft; when a truthy error is recorded for that field, set exactly that
entry to `undefined`. `validateForm` is not consulted. -/
def handleChange (s : ComponentState) (name : FieldName) (value : String) :
    ComponentState :=
  let s := { s with formData := s.formData.setField name value }
  if truthy (s.validationErrors.get name) then
    { s with validationErrors := s.validationErrors.set name none }
  else s

/-- The submit button is rendered with `disabled={loading}` (line 266),
and every input is likewise disabled while loading (lines 131, 177). A
disabled submit button neither receives activation clicks nor serves as
the target of the form's implicit submission, so while `loading` is true
no submit event reaches `handleSubmit`. -/
def submitButtonDisabled (s : ComponentState) : Bool :=
  s.loading

/-- A user submit attempt as it reaches the component: gated by the
disabled submit control, then handled by `handleSubmit`. -/
def dispatchSubmit (initialTitle initialDescription : String)
    (s : ComponentState) (cb : CallbackResult) : SubmitOutcome :=
  if submitButtonDisabled s then
    { state := s, callbackArgs := none, toastEmitted := false }
  else handleSubmit initialTitle initialDescription s cb

/-- A sample state whose draft passes validation, with a stale per-field
error and a stale whole-form error still recorded, used to instantiate
the universally quantified theorems below. -/
def sampleValid : ComponentState :=
  { formData := ⟨"  Buy milk  ", " from the store "⟩,
    category := some "home",
    priority := "high",
    dueDate := some 7,
    loading := false,
    validationErrors := ⟨some "Task title is required", none⟩,
    error := "old failure" }

/-- A sample state whose draft fails validation (empty title) while a
submission-failure message from an earlier attempt is still displayed. -/
def sampleInvalid : ComponentState :=
  { formData := ⟨"", "some notes"⟩,
    category := some "work",
    priority := "low",
    dueDate := some 3,
    loading := false,
    validationErrors := ⟨none, none⟩,
    error := "Failed to save task" }

set_option maxRecDepth 100000

/-- Trimming never lengthens a string (character-list version). -/
theorem jsTrimList_length_le (l : List Char) : (jsTrimList l).length ≤ l.length := by
  unfold jsTrimList List.rdropWhile
  calc ((l.dropWhile isJsSpace).reverse.dropWhile isJsSpace).reverse.length
      = ((l.dropWhile isJsSpace).reverse.dropWhile isJsSpace).length :=
        List.length_reverse _
    _ ≤ (l.dropWhile isJsSpace).reverse.length :=
        (List.dropWhile_suffix _).length_le
    _ = (l.dropWhile isJsSpace).length := List.length_reverse _
    _ ≤ l.length := (List.dropWhile_suffix _).length_le

/-- Trimming never lengthens a string. -/
theorem jsTrim_length_le (s : String) : (jsTrim s).length ≤ s.length :=
  jsTrimList_length_le s.data

/-- The first element surviving a `dropWhile` fails the predicate. -/
theorem head_not_sat {α : Type} (p : α → Bool) :
    ∀ (l : List α) (c : α) (rest : List α),
      List.dropWhile p l = c :: rest → p c = false := by
  intro l
  induction l with
  | nil => intro c rest h; simp [List.dropWhile] at h
  | cons a t ih =>
      intro c rest h
      rw [List.dropWhile_cons] at h
      by_cases hpa : p a
      · exact ih c rest (by rwa [if_pos hpa] at h)
      · rw [if_neg hpa] at h
        obtain ⟨h1, h2⟩ := List.cons.inj h
        subst h1
        simpa using hpa

/-- A trimmed character list is unchanged by a further leading trim. -/
theorem dropWhile_jsTrimList (l : List Char) :
    List.dropWhile isJsSpace (jsTrimList l) = jsTrimList l := by
  obtain ⟨r, hr⟩ := List.rdropWhile_prefix isJsSpace (l.dropWhile isJsSpace)
  cases hu : jsTrimList l with
  | nil => rfl
  | cons c u' =>
      have hu' : List.rdropWhile isJsSpace (List.dropWhile isJsSpace l) = c :: u' := hu
      rw [hu'] at hr
      have hc : isJsSpace c = false :=
        head_not_sat isJsSpace l c (u' ++ r) (by rw [← hr]; simp)
      rw [List.dropWhile_cons]
      simp [hc]

/-- Trimming is idempotent (character-list version). -/
theorem jsTrimList_idem (l : List Char) : jsTrimList (jsTrimList l) = jsTrimList l := by
  show List.rdropWhile isJsSpace (List.dropWhile isJsSpace (jsTrimList l)) = jsTrimList l
  rw [dropWhile_jsTrimList]
  show List.rdropWhile isJsSpace
      (List.rdropWhile isJsSpace (l.dropWhile isJsSpace)) = jsTrimList l
  rw [List.rdropWhile_idempotent]
  rfl

/-- Trimming is idempotent: the strings `handleSubmit` builds with
`.trim()` are fixed points of `jsTrim`. -/
theorem jsTrim_idem (s : String) : jsTrim (jsTrim s) = jsTrim s := by
  show String.mk (jsTrimList (jsTrimList s.data)) = String.mk (jsTrimList s.data)
  rw [jsTrimList_idem]

/-- The boolean result of `validateForm` in terms of the error object. -/
theorem validateReturn_iff_numKeys (fd : FormData) :
    validateReturn fd = true ↔ (validateForm fd).numKeys = 0 := by
  simp [validateReturn]

/-- Characterization of the `validateForm` verdict. -/
theorem validateReturn_eq_true_iff (fd : FormData) :
    validateReturn fd = true ↔
      (jsTrim fd.title ≠ "" ∧ fd.title.length ≤ 200 ∧ fd.description.length ≤ 1000) := by
  by_cases h1 : jsTrim fd.title = "" <;>
    by_cases h2 : fd.title.length > 200 <;>
    by_cases h3 : fd.description.length > 1000 <;>
    simp [validateReturn, validateForm, ValidationErrors.numKeys, h1, h2, h3] ;
    omega

/-- Claim C1, counterexample: a title made of 201 whitespace characters
has length 201, yet `validateForm` records the required-title error, not
the length-specific one, so the claim's "false with a length-specific
title error for every title of length 201 or more" fails at this
input. -/
theorem C1_counterexample :
    (FormData.title ⟨String.mk (List.replicate 201 ' '), ""⟩).length = 201 ∧
    validateReturn ⟨String.mk (List.replicate 201 ' '), ""⟩ = false ∧
    (validateForm ⟨String.mk (List.replicate 201 ' '), ""⟩).title =
      some "Task title is required" ∧
    (validateForm ⟨String.mk (List.replicate 201 ' '), ""⟩).title ≠
      some "Title must be under 200 characters" := by
  decide

/-- Claim C1 (amended): `validateForm` returns true iff the trimmed
title is non-empty, the title's length is at most 200 and the
description's length is at most 1000; every whitespace-only title gets
the required-title error regardless of description; every title of
length 201 or more *whose trimmed form is non-empty* gets the
length-specific error (whitespace-only titles of any length get the
required error instead); every description of length 1001 or more
produces a description error; and the error mapping recorded by a submit
attempt is computed from the draft alone, replacing any prior mapping. -/
theorem C1_validateForm_amended (fd : FormData) :
    (validateReturn fd = true ↔
      (jsTrim fd.title ≠ "" ∧ fd.title.length ≤ 200 ∧ fd.description.length ≤ 1000)) ∧
    (jsTrim fd.title = "" →
      validateReturn fd = false ∧
      (validateForm fd).title = some "Task title is required") ∧
    (jsTrim fd.title ≠ "" → 201 ≤ fd.title.length →
      validateReturn fd = false ∧
      (validateForm fd).title = some "Title must be under 200 characters") ∧
    (1001 ≤ fd.description.length →
      validateReturn fd = false ∧
      (validateForm fd).description = some "Description must be under 1000 characters") ∧
    (∀ (it id : String) (s : ComponentState) (cb : CallbackResult),
      s.formData = fd →
      (handleSubmit it id s cb).state.validationErrors = validateForm fd) := by
  refine ⟨validateReturn_eq_true_iff fd, ?_, ?_, ?_, ?_⟩
  · intro h1
    constructor
    · simp [validateReturn, validateForm, ValidationErrors.numKeys, h1]
    · simp [validateForm, h1]
  · intro h1 h2
    have h2' : fd.title.length > 200 := by omega
    constructor
    · simp [validateReturn, validateForm, ValidationErrors.numKeys, h1, h2']
    · simp [validateForm, h1, h2']
  · intro h3
    have h3' : fd.description.length > 1000 := by omega
    constructor
    · simp [validateReturn, validateForm, ValidationErrors.numKeys, h3']
    · simp [validateForm, h3']
  · intro it id s cb hfd
    subst hfd
    rcases s with ⟨fd, cat, pr, dd, ld, ve, er⟩
    cases cb <;> simp only [handleSubmit] <;> split <;>
      first
      | rfl
      | (split <;> rfl)

/-- Witness for claim C1: the amended theorem applied at concrete drafts
exhibiting each of its guarded cases. -/
theorem C1_validateForm_amended_witness :
    ((validateForm ⟨"   ", "boom"⟩).title = some "Task title is required") ∧
    ((validateForm ⟨String.mk ('a' :: List.replicate 200 'b'), ""⟩).title =
      some "Title must be under 200 characters") ∧
    ((validateForm ⟨"ok", String.mk (List.replicate 1001 'c')⟩).description =
      some "Description must be under 1000 characters") ∧
    ((handleSubmit "" ""
        ⟨⟨"t", "d"⟩, none, "medium", none, false, ⟨some "stale", some "stale"⟩, "old"⟩
        .success).state.validationErrors = validateForm ⟨"t", "d"⟩) :=
  ⟨((C1_validateForm_amended ⟨"   ", "boom"⟩).2.1 (by decide)).2,
   ((C1_validateForm_amended ⟨String.mk ('a' :: List.replicate 200 'b'), ""⟩).2.2.1
      (by decide) (by decide)).2,
   ((C1_validateForm_amended ⟨"ok", String.mk (List.replicate 1001 'c')⟩).2.2.2.1
      (by decide)).2,
   (C1_validateForm_amended ⟨"t", "d"⟩).2.2.2.2 "" ""
      ⟨⟨"t", "d"⟩, none, "medium", none, false, ⟨some "stale", some "stale"⟩, "old"⟩
      .success rfl⟩

/-- Claim C2, counterexample: a submit attempt that fails validation
while a previously recorded whole-form error is displayed clears that
error (`setError('')` runs before the guard), so the recorded field
errors are not the sole state change. -/
theorem C2_counterexample :
    validateReturn sampleInvalid.formData = false ∧
    sampleInvalid.error ≠ "" ∧
    (handleSubmit "" "" sampleInvalid .success).callbackArgs = none ∧
    (handleSubmit "" "" sampleInvalid .success).state.error ≠ sampleInvalid.error := by
  decide

/-- Claim C2 (amended): a submit attempt on a draft that fails
validation never invokes the persistence callback, emits no toast, and
its only state changes are the freshly recorded validation errors and
the whole-form submission error being cleared to the empty string; in
particular the draft and the loading flag are untouched and no
transition to the submitting state occurs. -/
theorem C2_handleSubmit_invalid (it id : String) (s : ComponentState)
    (cb : CallbackResult) (h : validateReturn s.formData = false) :
    (handleSubmit it id s cb).callbackArgs = none ∧
    (handleSubmit it id s cb).toastEmitted = false ∧
    (handleSubmit it id s cb).state =
      { s with error := "", validationErrors := validateForm s.formData } := by
  have hk : ¬ (validateForm s.formData).numKeys = 0 := by
    intro h0
    have h2 := (validateReturn_iff_numKeys s.formData).mpr h0
    rw [h2] at h
    exact Bool.noConfusion h
  rcases s with ⟨fd, cat, pr, dd, ld, ve, er⟩
  simp only [handleSubmit] at *
  simp [hk]

/-- Witness for claim C2: the amended theorem applied at the sample
invalid state. -/
theorem C2_handleSubmit_invalid_witness :
    validateReturn sampleInvalid.formData = false ∧
    (handleSubmit "x" "y" sampleInvalid .throwNonError).state =
      { sampleInvalid with
          error := "", validationErrors := validateForm sampleInvalid.formData } :=
  ⟨by decide,
   (C2_handleSubmit_invalid "x" "y" sampleInvalid .throwNonError (by decide)).2.2⟩

/-- Claim C3, confirmed: every run of `handleSubmit` on a draft that
passes validation ends with the loading flag false, whichever way the
callback resolves (success, rejection with an `Error`, rejection with a
non-`Error` value); the handler is a total function, so no failure
escapes it. -/
theorem C3_submit_returns_idle (it id : String) (s : ComponentState)
    (cb : CallbackResult) (h : validateReturn s.formData = true) :
    (handleSubmit it id s cb).state.loading = false := by
  have hk := (validateReturn_iff_numKeys s.formData).mp h
  rcases s with ⟨fd, cat, pr, dd, ld, ve, er⟩
  cases cb <;> simp [handleSubmit, hk]

/-- Witness for claim C3: a concrete valid draft run through all three
callback behaviours. -/
theorem C3_submit_returns_idle_witness :
    validateReturn sampleValid.formData = true ∧
    (handleSubmit "" "" sampleValid .success).state.loading = false ∧
    (handleSubmit "" "" sampleValid (.errorWith "boom")).state.loading = false ∧
    (handleSubmit "" "" sampleValid .throwNonError).state.loading = false :=
  ⟨by decide,
   C3_submit_returns_idle "" "" sampleValid .success (by decide),
   C3_submit_returns_idle "" "" sampleValid (.errorWith "boom") (by decide),
   C3_submit_returns_idle "" "" sampleValid .throwNonError (by decide)⟩

/-- Claim C4, confirmed: when the callback fails, the whole draft
(title, description, category, priority, due date) is unchanged, the
reported message — or the generic fallback for a non-`Error` value — is
recorded as the whole-form error, the toast notification fires, and the
form is back in the idle (not loading) state. -/
theorem C4_submit_failure_preserves_draft (it id : String) (s : ComponentState)
    (h : validateReturn s.formData = true) :
    (∀ msg : String,
      (handleSubmit it id s (.errorWith msg)).state.formData = s.formData ∧
      (handleSubmit it id s (.errorWith msg)).state.category = s.category ∧
      (handleSubmit it id s (.errorWith msg)).state.priority = s.priority ∧
      (handleSubmit it id s (.errorWith msg)).state.dueDate = s.dueDate ∧
      (handleSubmit it id s (.errorWith msg)).state.error = msg ∧
      (handleSubmit it id s (.errorWith msg)).toastEmitted = true ∧
      (handleSubmit it id s (.errorWith msg)).state.loading = false) ∧
    ((handleSubmit it id s .throwNonError).state.formData = s.formData ∧
      (handleSubmit it id s .throwNonError).state.category = s.category ∧
      (handleSubmit it id s .throwNonError).state.priority = s.priority ∧
      (handleSubmit it id s .throwNonError).state.dueDate = s.dueDate ∧
      (handleSubmit it id s .throwNonError).state.error = "Failed to save task" ∧
      (handleSubmit it id s .throwNonError).toastEmitted = true ∧
      (handleSubmit it id s .throwNonError).state.loading = false) := by
  have hk := (validateReturn_iff_numKeys s.formData).mp h
  rcases s with ⟨fd, cat, pr, dd, ld, ve, er⟩
  constructor
  · intro msg
    simp [handleSubmit, hk]
  · simp [handleSubmit, hk]

/-- Witness for claim C4: the theorem applied at the sample valid state
with a concrete failure message. -/
theorem C4_submit_failure_preserves_draft_witness :
    validateReturn sampleValid.formData = true ∧
    (handleSubmit "" "" sampleValid (.errorWith "DB down")).state.error = "DB down" ∧
    (handleSubmit "" "" sampleValid (.errorWith "DB down")).state.formData =
      sampleValid.formData ∧
    (handleSubmit "" "" sampleValid .throwNonError).state.error =
      "Failed to save task" :=
  ⟨by decide,
   ((C4_submit_failure_preserves_draft "" "" sampleValid (by decide)).1
      "DB down").2.2.2.2.1,
   ((C4_submit_failure_preserves_draft "" "" sampleValid (by decide)).1
      "DB down").1,
   (C4_submit_failure_preserves_draft "" "" sampleValid (by decide)).2.2.2.2.2.1⟩

/-- Claim C5, confirmed: while a submission is in flight the submit
control is disabled, so a submit attempt leaves the state exactly as it
is, invokes no callback and emits no toast; the submit action is only
accepted while the state is idle. -/
theorem C5_inflight_submit_is_noop (it id : String) (s : ComponentState)
    (cb : CallbackResult) (h : s.loading = true) :
    dispatchSubmit it id s cb =
      { state := s, callbackArgs := none, toastEmitted := false } := by
  simp [dispatchSubmit, submitButtonDisabled, h]

/-- Witness for claim C5: a second submit during a pending submission of
the sample valid state is dropped whole. -/
theorem C5_inflight_submit_is_noop_witness :
    ComponentState.loading { sampleValid with loading := true } = true ∧
    dispatchSubmit "" "" { sampleValid with loading := true } .success =
      { state := { sampleValid with loading := true },
        callbackArgs := none, toastEmitted := false } :=
  ⟨rfl, C5_inflight_submit_is_noop "" "" { sampleValid with loading := true }
    .success rfl⟩

/-- Claim C6, confirmed: a successful submit of a form constructed in
create mode — both initial title and initial description empty — resets
the whole draft: title and description to the empty string, category to
absent, priority to "medium", and due date to absent. -/
theorem C6_create_mode_resets_draft (s : ComponentState)
    (h : validateReturn s.formData = true) :
    (handleSubmit "" "" s .success).state.formData = ⟨"", ""⟩ ∧
    (handleSubmit "" "" s .success).state.category = none ∧
    (handleSubmit "" "" s .success).state.priority = "medium" ∧
    (handleSubmit "" "" s .success).state.dueDate = none := by
  have hk := (validateReturn_iff_numKeys s.formData).mp h
  rcases s with ⟨fd, cat, pr, dd, ld, ve, er⟩
  simp [handleSubmit, hk]

/-- Witness for claim C6: the theorem applied at the sample valid
state. -/
theorem C6_create_mode_resets_draft_witness :
    validateReturn sampleValid.formData = true ∧
    (handleSubmit "" "" sampleValid .success).state.formData = ⟨"", ""⟩ ∧
    (handleSubmit "" "" sampleValid .success).state.category = none ∧
    (handleSubmit "" "" sampleValid .success).state.priority = "medium" ∧
    (handleSubmit "" "" sampleValid .success).state.dueDate = none :=
  ⟨by decide, C6_create_mode_resets_draft sampleValid (by decide)⟩

/-- Claim C7, confirmed: a successful submit of a form constructed in
edit mode — non-empty initial title — leaves every draft field (title,
description, category, priority, due date) exactly as it was before the
submit; no reset occurs. -/
theorem C7_edit_mode_preserves_draft (it id : String) (s : ComponentState)
    (hit : it ≠ "") (h : validateReturn s.formData = true) :
    (handleSubmit it id s .success).state.formData = s.formData ∧
    (handleSubmit it id s .success).state.category = s.category ∧
    (handleSubmit it id s .success).state.priority = s.priority ∧
    (handleSubmit it id s .success).state.dueDate = s.dueDate := by
  have hk := (validateReturn_iff_numKeys s.formData).mp h
  rcases s with ⟨fd, cat, pr, dd, ld, ve, er⟩
  simp [handleSubmit, hk, hit]

/-- Witness for claim C7: the theorem applied at the sample valid state
mounted with a non-empty initial title. -/
theorem C7_edit_mode_preserves_draft_witness :
    ("Old title" : String) ≠ "" ∧
    validateReturn sampleValid.formData = true ∧
    (handleSubmit "Old title" "" sampleValid .success).state.formData =
      sampleValid.formData ∧
    (handleSubmit "Old title" "" sampleValid .success).state.category =
      sampleValid.category ∧
    (handleSubmit "Old title" "" sampleValid .success).state.priority =
      sampleValid.priority ∧
    (handleSubmit "Old title" "" sampleValid .success).state.dueDate =
      sampleValid.dueDate :=
  ⟨by decide, by decide,
   C7_edit_mode_preserves_draft "Old title" "" sampleValid (by decide) (by decide)⟩

/-- Claim C8, confirmed: editing a field that has a recorded validation
error overwrites that field's value in the draft, clears exactly that
field's error entry, and changes nothing else: the other field's value
and error entry, the category, priority, due date, loading flag and
whole-form error are all untouched, and `validateForm` is never
consulted. -/
theorem C8_edit_clears_only_that_error (s : ComponentState) (name : FieldName)
    (v : String) (h : truthy (s.validationErrors.get name) = true) :
    (handleChange s name v).formData = s.formData.setField name v ∧
    (handleChange s name v).formData.getField name = v ∧
    (handleChange s name v).formData.getField name.other =
      s.formData.getField name.other ∧
    (handleChange s name v).validationErrors.get name = none ∧
    (handleChange s name v).validationErrors.get name.other =
      s.validationErrors.get name.other ∧
    (handleChange s name v).category = s.category ∧
    (handleChange s name v).priority = s.priority ∧
    (handleChange s name v).dueDate = s.dueDate ∧
    (handleChange s name v).loading = s.loading ∧
    (handleChange s name v).error = s.error := by
  rcases s with ⟨⟨t, d⟩, cat, pr, dd, ld, ⟨et, ed⟩, er⟩
  cases name <;>
    simp_all [handleChange, FieldName.other, FormData.setField, FormData.getField,
      ValidationErrors.get, ValidationErrors.set]

/-- Witness for claim C8: editing the title of the sample valid state,
which carries a stale title error. -/
theorem C8_edit_clears_only_that_error_witness :
    truthy (sampleValid.validationErrors.get .title) = true ∧
    (handleChange sampleValid .title "New title").formData.getField .title =
      "New title" ∧
    (handleChange sampleValid .title "New title").validationErrors.get .title =
      none ∧
    (handleChange sampleValid .title "New title").validationErrors.get
        FieldName.title.other =
      sampleValid.validationErrors.get FieldName.title.other :=
  ⟨by decide,
   (C8_edit_clears_only_that_error sampleValid .title "New title" (by decide)).2.1,
   (C8_edit_clears_only_that_error sampleValid .title "New title" (by decide)).2.2.2.1,
   (C8_edit_clears_only_that_error sampleValid .title "New title" (by decide)).2.2.2.2.1⟩

/-- The arguments `handleSubmit` hands to `onSubmit`: the trimmed title
and description together with the collaborator-owned fields, and only
when validation passed. -/
theorem handleSubmit_callbackArgs_eq (it id : String) (s : ComponentState)
    (cb : CallbackResult) :
    (handleSubmit it id s cb).callbackArgs =
      if (validateForm s.formData).numKeys = 0 then
        some ⟨jsTrim s.formData.title, jsTrim s.formData.description,
              s.category, s.priority, s.dueDate⟩
      else none := by
  rcases s with ⟨fd, cat, pr, dd, ld, ve, er⟩
  by_cases hk : (validateForm fd).numKeys = 0 <;>
    cases cb <;> simp [handleSubmit, hk]

/-- Claim C9, confirmed: whenever the persistence callback is invoked,
its title argument is a fixed point of trimming, non-empty and at most
200 characters long, and its description argument is a fixed point of
trimming and at most 1000 characters long — the `validateForm` guard
plus the `.trim()` calls make a contract-violating invocation
unreachable. -/
theorem C9_callback_args_meet_contract (it id : String) (s : ComponentState)
    (cb : CallbackResult) (a : SubmitArgs)
    (h : (handleSubmit it id s cb).callbackArgs = some a) :
    a.title ≠ "" ∧ jsTrim a.title = a.title ∧ a.title.length ≤ 200 ∧
    jsTrim a.description = a.description ∧ a.description.length ≤ 1000 := by
  rw [handleSubmit_callbackArgs_eq] at h
  by_cases hk : (validateForm s.formData).numKeys = 0
  · rw [if_pos hk] at h
    have ha := Option.some.inj h
    subst ha
    have hv := (validateReturn_iff_numKeys s.formData).mpr hk
    obtain ⟨h1, h2, h3⟩ := (validateReturn_eq_true_iff s.formData).mp hv
    exact ⟨h1, jsTrim_idem _, Nat.le_trans (jsTrim_length_le _) h2,
      jsTrim_idem _, Nat.le_trans (jsTrim_length_le _) h3⟩
  · rw [if_neg hk] at h
    exact absurd h (by simp)

/-- Witness for claim C9: a concrete submit of the sample valid state,
whose untrimmed draft fields carry surrounding whitespace. -/
theorem C9_callback_args_meet_contract_witness :
    (handleSubmit "" "" sampleValid .success).callbackArgs =
      some ⟨"Buy milk", "from the store", some "home", "high", some 7⟩ ∧
    (("Buy milk" : String) ≠ "" ∧ jsTrim "Buy milk" = "Buy milk" ∧
      ("Buy milk" : String).length ≤ 200 ∧
      jsTrim "from the store" = "from the store" ∧
      ("from the store" : String).length ≤ 1000) :=
  ⟨by decide,
   C9_callback_args_meet_contract "" "" sampleValid .success
     ⟨"Buy milk", "from the store", some "home", "high", some 7⟩ (by decide)⟩

/-- Claim C10, confirmed: `setError('')` runs before the validation
guard, so the outcome of a submit attempt never depends on the
previously displayed whole-form error, and a submit attempt that fails
validation leaves the whole-form error equal to the empty string —
erasing any previously recorded submission-failure message. -/
theorem C10_error_cleared_on_every_submit (it id : String) (s : ComponentState)
    (cb : CallbackResult) :
    (∀ e : String,
      handleSubmit it id { s with error := e } cb =
        handleSubmit it id { s with error := "" } cb) ∧
    (validateReturn s.formData = false →
      (handleSubmit it id s cb).state.error = "") := by
  constructor
  · intro e
    rfl
  · intro h
    have hk : ¬ (validateForm s.formData).numKeys = 0 := by
      intro h0
      have h2 := (validateReturn_iff_numKeys s.formData).mpr h0
      rw [h2] at h
      exact Bool.noConfusion h
    rcases s with ⟨fd, cat, pr, dd, ld, ve, er⟩
    simp [handleSubmit, hk]

/-- Witness for claim C10: the sample invalid state still shows a
previous submission-failure message; after the failed submit attempt the
message is gone. -/
theorem C10_error_cleared_on_every_submit_witness :
    validateReturn sampleInvalid.formData = false ∧
    (handleSubmit "" "" sampleInvalid .success).state.error = "" :=
  ⟨by decide,
   (C10_error_cleared_on_every_submit "" "" sampleInvalid .success).2 (by decide)⟩

end TaskForm
